import Mathlib

/-!
Verification development for the AIWriterExtension LibreOffice add-in
(src/AIWriterExtension.py). The Python source is shallowly embedded:

* Python scalar values (`PyVal`) stand for the strings, integers and floats
  the extension stores in its flat JSON settings file; floats are modelled
  as rationals, which is exact for the decimal literals the program handles.
* The settings file (`FileState`) is either missing, unreadable/corrupt, or
  a flat key-to-scalar mapping; `get_config` / `set_config` embed the
  read-with-default and read-modify-write functions of the source.
* `prompt_map` / `build_prompt` embed the command-to-prompt dictionary of
  `process_text`; `process_text` embeds the completion client, with the
  HTTP round trip abstracted as a `Wire` oracle (a status/body response or
  a raised transport exception) and Python's `json.loads` abstracted as an
  explicit `loads` parameter.
* `insert_text` embeds the result inserter: it returns the exact string the
  source writes over the view cursor's content.
* `settings_box` / `translation_box` embed the two modal dialogs' result
  records (the widget layout is host-toolkit glue and carries no logic);
  `trigger` embeds the command dispatcher with its validation, dialog,
  write-back and error-handling structure, recording the observable
  effects (dialogs shown, HTTP calls, config writes, inline error appends,
  text inserted, exceptions escaping).

Python exception objects are modelled by `PyExn`; their `str(e)` rendering
is abstracted by `pyExnStr` (no claim depends on the host's exact message
text). `int(...)` and `float(...)` are modelled for plain decimal literals,
which is what the program stores and the spec exercises.
-/

namespace AIWriter

/-- A Python scalar value as stored in the flat settings JSON: string,
integer, or float (floats modelled as exact rationals). -/
inductive PyVal where
  | str (s : String)
  | int (n : Int)
  | float (q : Rat)
deriving DecidableEq

/-- Python `str(...)` on a stored scalar. The float rendering is a
placeholder (no claim depends on float formatting). -/
def pyStr : PyVal → String
  | .str s => s
  | .int n => toString n
  | .float q => toString q

/-- Python `str.strip()` on a character list: drop leading and trailing
whitespace. -/
def stripChars (cs : List Char) : List Char :=
  ((cs.dropWhile Char.isWhitespace).reverse.dropWhile Char.isWhitespace).reverse

/-- Python `str.strip()`: the string with surrounding whitespace removed. -/
def pyStrip (s : String) : String :=
  ⟨stripChars s.data⟩

/-- Python `str.upper()` (ASCII): every character uppercased. -/
def pyUpper (s : String) : String :=
  ⟨s.data.map Char.toUpper⟩

/-- Value of a list of decimal digit characters. -/
def digitsToNat (cs : List Char) : Nat :=
  cs.foldl (fun a c => a * 10 + (c.toNat - 48)) 0

/-- True when the character list is nonempty and all decimal digits. -/
def allDigits (cs : List Char) : Bool :=
  !cs.isEmpty && cs.all Char.isDigit

/-- Python `str.isdigit()` (ASCII digits): nonempty and all digits. -/
def pyIsDigit (s : String) : Bool :=
  allDigits s.data

/-- Split a sign character off the front, as Python numeric literals allow. -/
def splitSign : List Char → Bool × List Char
  | '-' :: r => (true, r)
  | '+' :: r => (false, r)
  | r => (false, r)

/-- Python `int(s)` on a string: optional surrounding whitespace, optional
sign, decimal digits; `ValueError` text otherwise. -/
def pyIntStr (s : String) : Except String Int :=
  let t := stripChars s.data
  let p := splitSign t
  if allDigits p.2 then
    let v : Int := digitsToNat p.2
    .ok (if p.1 then -v else v)
  else
    .error ("invalid literal for int() with base 10: " ++ s)

/-- Split an unsigned numeric literal at its first dot, when one occurs. -/
def splitFrac (cs : List Char) : List Char × Option (List Char) :=
  let p := cs.span (fun c => c != '.')
  match p.2 with
  | [] => (p.1, none)
  | _ :: fp => (p.1, some fp)

/-- The rational value of a signed decimal literal with integer digits `ip`
and fractional digits `fp`. -/
def decToRat (neg : Bool) (ip fp : List Char) : Rat :=
  let q := mkRat (Int.ofNat (digitsToNat ip * 10 ^ fp.length + digitsToNat fp)) (10 ^ fp.length)
  if neg then -q else q

/-- Python `float(s)` on a plain decimal literal: optional surrounding
whitespace, optional sign, digits with an optional fractional part
(`"1"`, `"0.5"`, `"1."`, `".5"`); `ValueError` text otherwise. -/
def pyFloatStr (s : String) : Except String Rat :=
  let t := stripChars s.data
  let p := splitSign t
  match splitFrac p.2 with
  | (ip, none) =>
    if allDigits ip then .ok (decToRat p.1 ip [])
    else .error ("could not convert string to float: " ++ s)
  | (ip, some fp) =>
    if (ip.isEmpty && fp.isEmpty) || !(ip.all Char.isDigit) || !(fp.all Char.isDigit) then
      .error ("could not convert string to float: " ++ s)
    else .ok (decToRat p.1 ip fp)

/-- Truncation toward zero, Python `int(float)`. -/
def ratTrunc (q : Rat) : Int :=
  if 0 ≤ q then q.floor else q.ceil

/-- Python `int(v)` on a stored scalar. -/
def pyIntVal : PyVal → Except String Int
  | .int n => .ok n
  | .float q => .ok (ratTrunc q)
  | .str s => pyIntStr s

/-- Python `float(v)` on a stored scalar. -/
def pyFloatVal : PyVal → Except String Rat
  | .float q => .ok q
  | .int n => .ok (mkRat n 1)
  | .str s => pyFloatStr s

/-- A Python exception as the embedding distinguishes them. -/
inductive PyExn where
  | keyError (k : String)
  | indexError (m : String)
  | typeError (m : String)
  | attributeError (m : String)
  | valueError (m : String)
deriving DecidableEq

/-- Python `str(e)` on an exception, abstracted: the message text carried by
the model (no claim depends on the host's exact rendering). -/
def pyExnStr : PyExn → String
  | .keyError k => "KeyError: " ++ k
  | .indexError m => m
  | .typeError m => m
  | .attributeError m => m
  | .valueError m => m

/-- A parsed JSON value, as `json.loads` would return it. -/
inductive Json where
  | null
  | str (s : String)
  | int (n : Int)
  | arr (xs : List Json)
  | obj (kvs : List (String × Json))

/-- Python subscript `j[k]` with a string key: dict lookup, `KeyError` when
the key is absent, `TypeError` on non-dicts. -/
def Json.sub (j : Json) (k : String) : Except PyExn Json :=
  match j with
  | .obj kvs =>
    match kvs.lookup k with
    | some v => .ok v
    | none => .error (.keyError k)
  | .arr _ => .error (.typeError "list indices must be integers or slices, not str")
  | _ => .error (.typeError "object is not subscriptable")

/-- Python subscript `j[i]` with an integer index: list indexing,
`IndexError` when out of range. -/
def Json.idx (j : Json) (i : Nat) : Except PyExn Json :=
  match j with
  | .arr xs =>
    match xs.get? i with
    | some v => .ok v
    | none => .error (.indexError "list index out of range")
  | .obj _ => .error (.keyError (toString i))
  | _ => .error (.typeError "object is not subscriptable")

/-- The subscript chain `response_data["choices"][0]["message"]["content"]`
of `process_text`, before the final `.strip()`. -/
def contentAt (j : Json) : Except PyExn Json := do
  let c ← j.sub "choices"
  let c0 ← c.idx 0
  let m ← c0.sub "message"
  m.sub "content"

/-- The full extraction of `process_text`'s 200-branch:
`response_data["choices"][0]["message"]["content"].strip()`. A non-string
at the path makes `.strip()` raise `AttributeError`. -/
def extract_content (j : Json) : Except PyExn String :=
  match contentAt j with
  | .error e => .error e
  | .ok (Json.str s) => .ok (pyStrip s)
  | .ok _ => .error (.attributeError "object has no attribute strip")

/-- The settings file `aiwriter.json`: absent, unreadable/corrupt JSON, or a
flat mapping read by `json.load`. -/
inductive FileState where
  | missing
  | corrupt
  | ok (kvs : List (String × PyVal))
deriving DecidableEq

/-- Python dict assignment `d[k] = v` on an association list: update the
existing entry in place, or append a new one. -/
def dictSet : List (String × PyVal) → String → PyVal → List (String × PyVal)
  | [], k, v => [(k, v)]
  | p :: rest, k, v => if p.1 = k then (k, v) :: rest else p :: dictSet rest k v

/-- `get_config(key, default)` of the source: default on a missing file or
unreadable/corrupt JSON, else `config_data.get(key, default)`. -/
def get_config : FileState → String → PyVal → PyVal
  | .missing, _, d => d
  | .corrupt, _, d => d
  | .ok kvs, k, d =>
    match kvs.lookup k with
    | some v => v
    | none => d

/-- `set_config(key, value)` of the source: load the existing mapping
(an empty dict on a missing or unreadable file), assign the one key, and
write the whole mapping back. -/
def set_config : FileState → String → PyVal → FileState
  | .missing, k, v => .ok (dictSet [] k v)
  | .corrupt, k, v => .ok (dictSet [] k v)
  | .ok kvs, k, v => .ok (dictSet kvs k v)

/-- The localized strings the extension loads from its language file; the
claims only touch these keys. -/
structure Lang where
  error : String
  no_text_selected : String
  no_api_key : String
  prompt_complete : String
  prompt_summarize : String
  prompt_improve : String
  prompt_expand : String
  prompt_translate : String
  prompt_assistant : String
  block_start : String
  block_end : String
  command_complete : String
  command_summarize : String
  command_improve : String
  command_expand : String
  command_translate : String
  settings : String
  translate : String

/-- The `prompt_map` dictionary of `process_text`, in source order; each
entry is the f-string the source builds for that command. -/
def prompt_map (L : Lang) (text lang : String) : List (String × String) :=
  [("complete", L.prompt_complete ++ ": " ++ text),
   ("summarize", L.prompt_summarize ++ ": " ++ text),
   ("improve", L.prompt_improve ++ ": " ++ text),
   ("expand", L.prompt_expand ++ ": " ++ text),
   ("translate", L.prompt_translate ++ " " ++ lang ++ ": " ++ text)]

/-- The prompt builder: `prompt_map[command]` when the command is in the
map, none for unrecognized commands (the `command not in prompt_map`
guard of `process_text`). -/
def build_prompt (L : Lang) (command text lang : String) : Option String :=
  (prompt_map L text lang).lookup command

/-- The five commands that run the completion pipeline. -/
def aiCommands : List String :=
  ["complete", "summarize", "improve", "expand", "translate"]

/-- A message box the extension shows (`show_dialog`, always an error box
in the dispatch paths). -/
structure Dialog where
  title : String
  message : String
deriving DecidableEq

/-- The outcome of the one `urllib.request.urlopen` round trip: a response
object with its HTTP status and decoded body, or a raised transport
exception (network failure / timeout) whose `str(e)` is the message. -/
inductive Wire where
  | response (status : Nat) (body : String)
  | exn (msg : String)
deriving DecidableEq

/-- What one run of `process_text` yields: the returned value (`None`
becomes `none`), the dialogs it showed, and how many HTTP calls it made. -/
structure ProcResult where
  ret : Option String
  dialogs : List Dialog
  httpCalls : Nat
deriving DecidableEq

/-- The try-block of `process_text`: one blocking round trip. A raised
transport exception or any failure inside the `with` block is caught and
shown as an error dialog; a non-200 status shows the raw body; a 200
status parses the body and extracts the trimmed content. -/
def http_step (L : Lang) (loads : String → Except String Json) (wire : Wire) : ProcResult :=
  match wire with
  | .exn m => ⟨none, [⟨L.error, m⟩], 1⟩
  | .response status body =>
    if status = 200 then
      match loads body with
      | .error m => ⟨none, [⟨L.error, m⟩], 1⟩
      | .ok j =>
        match extract_content j with
        | .ok s => ⟨some s, [], 1⟩
        | .error e => ⟨none, [⟨L.error, pyExnStr e⟩], 1⟩
    else ⟨none, [⟨L.error, body⟩], 1⟩

/-- `process_text(text, command, lang)` of the source: `None` for a command
outside `prompt_map`; otherwise the payload's `int(max_tokens)` and
`float(temperature)` coercions run before the try-block (so their
exceptions escape), and then the HTTP round trip runs. `loads` abstracts
Python's `json.loads`. -/
def process_text (L : Lang) (cfg : FileState) (loads : String → Except String Json)
    (wire : Wire) (text command lang : String) : Except PyExn ProcResult :=
  if (prompt_map L text lang).lookup command = none then
    .ok ⟨none, [], 0⟩
  else
    match pyIntVal (get_config cfg "max_tokens" (PyVal.str "1000")),
          pyFloatVal (get_config cfg "temperature" (PyVal.str "0.5")) with
    | .error m, _ => .error (.valueError m)
    | .ok _, .error m => .error (.valueError m)
    | .ok _, .ok _ => .ok (http_step L loads wire)

/-- Lookup of `self.lang['command_' + command]`: the localized command
label; none models the `KeyError` for a command with no label. -/
def commandLabel (L : Lang) (c : String) : Option String :=
  if c = "complete" then some L.command_complete
  else if c = "summarize" then some L.command_summarize
  else if c = "improve" then some L.command_improve
  else if c = "expand" then some L.command_expand
  else if c = "translate" then some L.command_translate
  else none

/-- The `<LANGUAGE>` slot of `insert_text`: the persisted target language
for `translate`, empty for every other command. -/
def insertLanguage (cfg : FileState) (c : String) : String :=
  if c = "translate" then pyStr (get_config cfg "language" (PyVal.str "")) else ""

/-- `insert_text` of the source: the exact string written over the view
cursor's current content (`cursor.setString(...)`). -/
def insert_text (L : Lang) (cfg : FileState) (new_text selection command : String) :
    Except PyExn String :=
  match commandLabel L command with
  | none => .error (.keyError ("command_" ++ command))
  | some lbl =>
    .ok (selection ++ "\n\n[---" ++ L.block_start ++ " " ++ pyUpper lbl ++ " "
      ++ insertLanguage cfg command ++ "---]\n" ++ new_text
      ++ "\n[/---" ++ L.block_end ++ " " ++ pyUpper lbl ++ " "
      ++ insertLanguage cfg command ++ "---]\n\n")

/-- Number of occurrences of `pat` in a character list (every start
position counted). -/
def countOccsList (pat : List Char) : List Char → Nat
  | [] => if pat.isEmpty then 1 else 0
  | c :: rest =>
    (if pat.isPrefixOf (c :: rest) then 1 else 0) + countOccsList pat rest

/-- Number of occurrences of the pattern string in a string. -/
def countOccs (pat s : String) : Nat :=
  countOccsList pat.data s.data

/-- The text of the settings dialog's four edit fields when it closes. -/
structure DialogFields where
  api_key : String
  model : String
  max_tokens : String
  temperature : String
deriving DecidableEq

/-- The record `settings_box` returns: always `openai_api_key`, `model` and
`temperature`; `max_tokens` only when present (the confirm branch omits
the key for a non-digit field). -/
structure SBResult where
  openai_api_key : PyVal
  model : PyVal
  temperature : PyVal
  max_tokens : Option PyVal
deriving DecidableEq

/-- `settings_box` of the source, reduced to its result record (the widget
layout carries no logic). On confirm: the field texts, with
`float(temperature_text)` (which can raise `ValueError`) and `max_tokens`
as `int(text)` only when `text.isdigit()`. On cancel: the stored values
re-read through `str(...)` (api key, model, max_tokens) and
`float(...)` (temperature). -/
def settings_box (cfg : FileState) (confirmed : Bool) (f : DialogFields) :
    Except PyExn SBResult :=
  if confirmed then
    match pyFloatStr f.temperature with
    | .error m => .error (.valueError m)
    | .ok t =>
      .ok ⟨PyVal.str f.api_key, PyVal.str f.model, PyVal.float t,
        if pyIsDigit f.max_tokens then some (PyVal.int (digitsToNat f.max_tokens.data))
        else none⟩
  else
    match pyFloatVal (get_config cfg "temperature" (PyVal.str "0.5")) with
    | .error m => .error (.valueError m)
    | .ok t =>
      .ok ⟨PyVal.str (pyStr (get_config cfg "openai_api_key" (PyVal.str ""))),
        PyVal.str (pyStr (get_config cfg "model" (PyVal.str "gpt-4o-mini"))),
        PyVal.float t,
        some (PyVal.str (pyStr (get_config cfg "max_tokens" (PyVal.str "1000"))))⟩

/-- `translation_box` of the source, reduced to the `language` entry of its
result record: the edited text on confirm, the stored value (through
`str(...)`) on cancel. -/
def translation_box (cfg : FileState) (confirmed : Bool) (lang : String) : String :=
  if confirmed then lang else pyStr (get_config cfg "language" (PyVal.str ""))

/-- The host-side context one `trigger` call runs in: the language strings,
the settings file, whether `get_document()` returns a document, the view
cursor's selected string, the text of the selection range the settings
error handler appends to, how each dialog would close, the HTTP outcome
and the `json.loads` oracle. -/
structure Env where
  L : Lang
  cfg : FileState
  docPresent : Bool
  selection : String
  selRangeText : String
  sbConfirmed : Bool
  sbFields : DialogFields
  tbConfirmed : Bool
  tbLanguage : String
  wire : Wire
  loads : String → Except String Json

/-- The observable effects of one `trigger` call: dialogs shown, HTTP calls
made, dialog invocations, the inline `":error: ..."` append of the
settings handler, the string written by `insert_text` (when any), the
settings file afterwards, and an exception escaping `trigger` (when any). -/
structure TrigResult where
  dialogs : List Dialog
  httpCalls : Nat
  settingsBoxCalls : Nat
  translationBoxCalls : Nat
  inlineAppend : Option String
  inserted : Option String
  finalCfg : FileState
  raised : Option PyExn
deriving DecidableEq

/-- Effect record of a branch that did nothing observable. -/
def TrigResult.base (cfg : FileState) : TrigResult :=
  ⟨[], 0, 0, 0, none, none, cfg, none⟩

/-- The `settings` branch of `trigger`: open the dialog, then persist the
four fields in source order. A `ValueError` from the dialog's `float(...)`
or the `KeyError` from `result["max_tokens"]` (when the dialog omitted the
key) is caught and appended inline as `":error: " + str(e)`; the writes
already made stay. The dialog's record is a nonempty dict, so the
source's `if not result` guard never fires. -/
def settingsFlow (env : Env) : TrigResult :=
  match settings_box env.cfg env.sbConfirmed env.sbFields with
  | .error e =>
    ⟨[], 0, 1, 0, some (env.selRangeText ++ ":error: " ++ pyExnStr e), none, env.cfg, none⟩
  | .ok r =>
    let c1 := set_config env.cfg "openai_api_key" r.openai_api_key
    let c2 := set_config c1 "model" r.model
    match r.max_tokens with
    | none =>
      ⟨[], 0, 1, 0,
        some (env.selRangeText ++ ":error: " ++ pyExnStr (PyExn.keyError "max_tokens")),
        none, c2, none⟩
    | some mt =>
      let c3 := set_config c2 "max_tokens" mt
      let c4 := set_config c3 "temperature" r.temperature
      ⟨[], 0, 1, 0, none, none, c4, none⟩

/-- The `translate` branch of `trigger`: document, selection and API-key
checks, then the translation dialog, the `language` write-back, and (for a
nonempty language) the completion pipeline and insertion. Its exception
handler calls `selection.getByIndex(0)` on what is by then a plain string,
so an exception inside the try-block escapes as an `AttributeError`. -/
def translateFlow (env : Env) : TrigResult :=
  if env.docPresent = true then
    if pyStrip env.selection = "" then
      ⟨[⟨env.L.error, env.L.no_text_selected⟩], 0, 0, 0, none, none, env.cfg, none⟩
    else if get_config env.cfg "openai_api_key" (PyVal.str "") = PyVal.str "" then
      ⟨[⟨env.L.error, env.L.no_api_key⟩], 0, 0, 0, none, none, env.cfg, none⟩
    else
      let language := translation_box env.cfg env.tbConfirmed env.tbLanguage
      let c1 := set_config env.cfg "language" (PyVal.str language)
      if language = "" then ⟨[], 0, 0, 1, none, none, c1, none⟩
      else
        match process_text env.L c1 env.loads env.wire env.selection "translate" language with
        | .error _ =>
          ⟨[], 0, 0, 1, none, none, c1,
            some (PyExn.attributeError "str object has no attribute getByIndex")⟩
        | .ok pr =>
          match pr.ret with
          | some t =>
            if t = "" then ⟨pr.dialogs, pr.httpCalls, 0, 1, none, none, c1, none⟩
            else
              match insert_text env.L c1 t env.selection "translate" with
              | .ok out => ⟨pr.dialogs, pr.httpCalls, 0, 1, none, some out, c1, none⟩
              | .error _ =>
                ⟨pr.dialogs, pr.httpCalls, 0, 1, none, none, c1,
                  some (PyExn.attributeError "str object has no attribute getByIndex")⟩
          | none => ⟨pr.dialogs, pr.httpCalls, 0, 1, none, none, c1, none⟩
  else TrigResult.base env.cfg

/-- The final `else` branch of `trigger` (`complete`, `summarize`,
`improve`, `expand`, and any unrecognized command): document, selection
and API-key checks, then the completion pipeline and insertion. This
branch has no try/except, so an exception from the pipeline escapes. -/
def defaultFlow (env : Env) (command : String) : TrigResult :=
  if env.docPresent = true then
    if pyStrip env.selection = "" then
      ⟨[⟨env.L.error, env.L.no_text_selected⟩], 0, 0, 0, none, none, env.cfg, none⟩
    else if get_config env.cfg "openai_api_key" (PyVal.str "") = PyVal.str "" then
      ⟨[⟨env.L.error, env.L.no_api_key⟩], 0, 0, 0, none, none, env.cfg, none⟩
    else
      match process_text env.L env.cfg env.loads env.wire env.selection command "" with
      | .error e => ⟨[], 0, 0, 0, none, none, env.cfg, some e⟩
      | .ok pr =>
        match pr.ret with
        | some t =>
          if t = "" then ⟨pr.dialogs, pr.httpCalls, 0, 0, none, none, env.cfg, none⟩
          else
            match insert_text env.L env.cfg t env.selection command with
            | .ok out => ⟨pr.dialogs, pr.httpCalls, 0, 0, none, some out, env.cfg, none⟩
            | .error e => ⟨pr.dialogs, pr.httpCalls, 0, 0, none, none, env.cfg, some e⟩
        | none => ⟨pr.dialogs, pr.httpCalls, 0, 0, none, none, env.cfg, none⟩
  else TrigResult.base env.cfg

/-- `trigger(command)` of the source: the if/elif dispatch over the
command string. -/
def trigger (env : Env) (command : String) : TrigResult :=
  if command = "hello" then TrigResult.base env.cfg
  else if command = "settings" then settingsFlow env
  else if command = "translate" then translateFlow env
  else defaultFlow env command

/-- A concrete language table used to instantiate the theorems on sample
inputs. -/
def sampleLang : Lang :=
  ⟨"Error", "No text selected", "No API key", "Complete the following text",
   "Summarize the following text", "Improve the following text",
   "Expand the following text", "Translate the following text to",
   "You are a helpful writing assistant", "START", "END",
   "Complete", "Summarize", "Improve", "Expand", "Translate",
   "Settings", "Translate"⟩

/-- A `json.loads` oracle that fails on every body. -/
def failLoads : String → Except String Json :=
  fun _ => .error ("Expecting value: line 1 column 1 (char 0)")

/-- The response body of the spec's completion-client test, as parsed JSON:
`choices[0].message.content = " Hello "`. -/
def sampleJson : Json :=
  Json.obj [("choices", Json.arr
    [Json.obj [("message", Json.obj [("content", Json.str " Hello ")])]])]

/-- A `json.loads` oracle returning `sampleJson` for every body. -/
def sampleLoads : String → Except String Json :=
  fun _ => .ok sampleJson

/-- A sample host context: document open, nonempty selection, no settings
file, settings dialog confirmed with a non-numeric temperature field,
translation dialog confirmed with language `"en"`, endpoint answering 500. -/
def sampleEnv : Env :=
  ⟨sampleLang, FileState.missing, true, "Hola mundo", "", true,
   ⟨"sk-1", "gpt-4o-mini", "800", "abc"⟩, true, "en",
   Wire.response 500 "oops", failLoads⟩

/-- The sample host context with a whitespace-only selection. -/
def sampleEnvWS : Env :=
  ⟨sampleLang, FileState.missing, true, "  \n ", "", true,
   ⟨"sk-1", "gpt-4o-mini", "800", "abc"⟩, true, "en",
   Wire.response 500 "oops", failLoads⟩

/-- The output `insert_text` produces for the spec's sample: selection `X`,
command `improve`, generated text `Y`, under `sampleLang`. -/
def sampleImproveOut : String :=
  "X\n\n[---START IMPROVE ---]\nY\n[/---END IMPROVE ---]\n\n"

/-! ## Helper lemmas -/

theorem lookup_dictSet_self (kvs : List (String × PyVal)) (k : String) (v : PyVal) :
    (dictSet kvs k v).lookup k = some v := by
  induction kvs with
  | nil => simp [dictSet, List.lookup]
  | cons p rest ih =>
    by_cases h : p.1 = k
    · simp [dictSet, h, List.lookup]
    · have hb : (k == p.1) = false := beq_eq_false_iff_ne.mpr (Ne.symm h)
      simp [dictSet, h, List.lookup, hb, ih]

theorem lookup_dictSet_other (kvs : List (String × PyVal)) (k k' : String) (v : PyVal)
    (hne : k' ≠ k) : (dictSet kvs k v).lookup k' = kvs.lookup k' := by
  have hb : (k' == k) = false := beq_eq_false_iff_ne.mpr hne
  induction kvs with
  | nil => simp [dictSet, List.lookup, hb]
  | cons p rest ih =>
    by_cases h : p.1 = k
    · simp [dictSet, h, List.lookup, hb]
    · by_cases h2 : k' = p.1
      · simp [dictSet, h, List.lookup, h2]
      · have hb2 : (k' == p.1) = false := beq_eq_false_iff_ne.mpr h2
        simp [dictSet, h, List.lookup, hb2, ih]

/-! ## Claim theorems -/

/-- C4: the prompt builder maps `translate` with text `t` and language `l`
to `<prompt_translate_label> l: t`, `summarize` to
`<prompt_summarize_label>: t`, each of the four non-translate commands to
`<localized instruction>: t`, and every unrecognized command to none. -/
theorem C4_prompt_builder (L : Lang) :
    (∀ text lang, build_prompt L "translate" text lang
      = some (L.prompt_translate ++ " " ++ lang ++ ": " ++ text)) ∧
    (∀ text lang, build_prompt L "summarize" text lang
      = some (L.prompt_summarize ++ ": " ++ text)) ∧
    (∀ text lang, build_prompt L "complete" text lang
      = some (L.prompt_complete ++ ": " ++ text)) ∧
    (∀ text lang, build_prompt L "improve" text lang
      = some (L.prompt_improve ++ ": " ++ text)) ∧
    (∀ text lang, build_prompt L "expand" text lang
      = some (L.prompt_expand ++ ": " ++ text)) ∧
    (∀ c text lang, c ∉ aiCommands → build_prompt L c text lang = none) := by
  refine ⟨fun text lang => rfl, fun text lang => rfl, fun text lang => rfl,
    fun text lang => rfl, fun text lang => rfl, ?_⟩
  intro c text lang hc
  simp only [aiCommands, List.mem_cons, List.not_mem_nil, or_false, not_or] at hc
  obtain ⟨h1, h2, h3, h4, h5⟩ := hc
  simp [build_prompt, prompt_map, List.lookup,
    beq_eq_false_iff_ne.mpr h1, beq_eq_false_iff_ne.mpr h2, beq_eq_false_iff_ne.mpr h3,
    beq_eq_false_iff_ne.mpr h4, beq_eq_false_iff_ne.mpr h5]

/-- Witness for C4 at concrete inputs: the spec's two sample prompts and an
unrecognized command. -/
theorem C4_prompt_builder_witness :
    build_prompt sampleLang "translate" "hola" "en"
        = some "Translate the following text to en: hola"
      ∧ build_prompt sampleLang "summarize" "hola" ""
        = some "Summarize the following text: hola"
      ∧ build_prompt sampleLang "chat" "hola" "" = none :=
  ⟨(C4_prompt_builder sampleLang).1 "hola" "en",
   (C4_prompt_builder sampleLang).2.1 "hola" "",
   (C4_prompt_builder sampleLang).2.2.2.2.2 "chat" "hola" "" (by decide)⟩

/-- C6: writing a key with `set_config` and reading it back with
`get_config` yields the written value, and `get_config` returns the
supplied default when the settings file is missing, when it is
unreadable/corrupt, and when the key is absent. -/
theorem C6_settings_roundtrip (fs : FileState) (k : String) (v d : PyVal) :
    get_config (set_config fs k v) k d = v ∧
    (∀ k2 d2, get_config FileState.missing k2 d2 = d2) ∧
    (∀ k2 d2, get_config FileState.corrupt k2 d2 = d2) ∧
    (∀ kvs k2 d2, kvs.lookup k2 = none → get_config (FileState.ok kvs) k2 d2 = d2) := by
  refine ⟨?_, fun k2 d2 => rfl, fun k2 d2 => rfl, fun kvs k2 d2 h => by simp [get_config, h]⟩
  cases fs <;> simp [set_config, get_config, lookup_dictSet_self]

/-- Witness for C6: the spec's temperature round-trip (`0.7` written as a
float, read back as that float, not the `"0.5"` default) and a default
read on an absent key. -/
theorem C6_settings_roundtrip_witness :
    get_config (set_config FileState.missing "temperature" (PyVal.float (mkRat 7 10)))
        "temperature" (PyVal.str "0.5") = PyVal.float (mkRat 7 10)
      ∧ get_config (FileState.ok [("model", PyVal.str "gpt-4o-mini")])
        "temperature" (PyVal.str "0.5") = PyVal.str "0.5" :=
  ⟨(C6_settings_roundtrip FileState.missing "temperature"
      (PyVal.float (mkRat 7 10)) (PyVal.str "0.5")).1,
   (C6_settings_roundtrip FileState.missing "x" (PyVal.str "") (PyVal.str "")).2.2.2
      [("model", PyVal.str "gpt-4o-mini")] "temperature" (PyVal.str "0.5") rfl⟩

/-- C10: `set_config` writes only the given key — reading any other key
after the write yields exactly what it yielded before. -/
theorem C10_set_config_frame (fs : FileState) (k k' : String) (v d : PyVal)
    (hne : k' ≠ k) :
    get_config (set_config fs k v) k' d = get_config fs k' d := by
  have hb : (k' == k) = false := beq_eq_false_iff_ne.mpr hne
  cases fs with
  | missing => simp [set_config, get_config, dictSet, List.lookup, hb]
  | corrupt => simp [set_config, get_config, dictSet, List.lookup, hb]
  | ok kvs => simp [set_config, get_config, lookup_dictSet_other kvs k k' v hne]

/-- Witness for C10: updating `openai_api_key` leaves the stored `model`
value untouched. -/
theorem C10_set_config_frame_witness :
    get_config (set_config (FileState.ok
        [("openai_api_key", PyVal.str "old"), ("model", PyVal.str "gpt-4o-mini")])
        "openai_api_key" (PyVal.str "new")) "model" (PyVal.str "d")
      = get_config (FileState.ok
        [("openai_api_key", PyVal.str "old"), ("model", PyVal.str "gpt-4o-mini")])
        "model" (PyVal.str "d") :=
  C10_set_config_frame (FileState.ok
    [("openai_api_key", PyVal.str "old"), ("model", PyVal.str "gpt-4o-mini")])
    "openai_api_key" "model" (PyVal.str "new") (PyVal.str "d") (by decide)

/-- C9 counterexample: on cancel the returned record does not hold the
previously stored values — with `max_tokens` stored as the integer 1000
(the type the confirm path itself persists), cancelling returns the
string `"1000"`, a different value. -/
theorem C9_cancel_not_stored_cex :
    settings_box (FileState.ok [("max_tokens", PyVal.int 1000)]) false ⟨"", "", "", ""⟩
        = Except.ok ⟨PyVal.str "", PyVal.str "gpt-4o-mini", PyVal.float (mkRat 1 2),
            some (PyVal.str "1000")⟩
      ∧ get_config (FileState.ok [("max_tokens", PyVal.int 1000)]) "max_tokens"
          (PyVal.str "1000") = PyVal.int 1000
      ∧ PyVal.str "1000" ≠ PyVal.int 1000 :=
  ⟨rfl, rfl, by decide⟩

/-- C9 (amended): on confirm the returned record coerces temperature with
`float(...)` always, and contains `max_tokens` (as an integer) iff the
field text is all-digit, silently omitting the key otherwise; on cancel
the returned record holds the `str(...)`-coercions of the stored api key,
model and max_tokens and the `float(...)`-coercion of the stored
temperature (not necessarily the stored values themselves). -/
theorem C9_dialog_coercions (cfg : FileState) (f : DialogFields) :
    (∀ t, pyFloatStr f.temperature = Except.ok t →
      settings_box cfg true f = Except.ok
        ⟨PyVal.str f.api_key, PyVal.str f.model, PyVal.float t,
          if pyIsDigit f.max_tokens then some (PyVal.int (digitsToNat f.max_tokens.data))
          else none⟩) ∧
    (∀ r, settings_box cfg true f = Except.ok r →
      r.max_tokens.isSome = pyIsDigit f.max_tokens) ∧
    (∀ t, pyFloatVal (get_config cfg "temperature" (PyVal.str "0.5")) = Except.ok t →
      settings_box cfg false f = Except.ok
        ⟨PyVal.str (pyStr (get_config cfg "openai_api_key" (PyVal.str ""))),
         PyVal.str (pyStr (get_config cfg "model" (PyVal.str "gpt-4o-mini"))),
         PyVal.float t,
         some (PyVal.str (pyStr (get_config cfg "max_tokens" (PyVal.str "1000"))))⟩) := by
  refine ⟨fun t ht => ?_, fun r hr => ?_, fun t ht => ?_⟩
  · simp [settings_box, ht]
  · cases hft : pyFloatStr f.temperature with
    | error m => simp [settings_box, hft] at hr
    | ok t =>
      simp [settings_box, hft] at hr
      subst hr
      by_cases hd : pyIsDigit f.max_tokens <;> simp [hd]
  · simp [settings_box, ht]

/-- Witness for C9's amended theorem: a confirmed dialog with temperature
field `"0.7"` and all-digit max_tokens field `"800"` yields the coerced
record with `max_tokens` present. -/
theorem C9_dialog_coercions_witness :
    settings_box FileState.missing true ⟨"sk-1", "gpt-4o-mini", "800", "0.7"⟩
      = Except.ok ⟨PyVal.str "sk-1", PyVal.str "gpt-4o-mini", PyVal.float (mkRat 7 10),
          some (PyVal.int 800)⟩ :=
  (C9_dialog_coercions FileState.missing ⟨"sk-1", "gpt-4o-mini", "800", "0.7"⟩).1
    (mkRat 7 10) rfl

theorem trigger_settings_eq (env : Env) : trigger env "settings" = settingsFlow env := rfl

theorem trigger_translate_eq (env : Env) : trigger env "translate" = translateFlow env := rfl

theorem trigger_default_eq (env : Env) (c : String)
    (h1 : c ≠ "hello") (h2 : c ≠ "settings") (h3 : c ≠ "translate") :
    trigger env c = defaultFlow env c := by
  unfold trigger
  rw [if_neg h1, if_neg h2, if_neg h3]

theorem defaultFlow_no_key (env : Env) (c : String)
    (hk : get_config env.cfg "openai_api_key" (PyVal.str "") = PyVal.str "") :
    (defaultFlow env c).httpCalls = 0 ∧
      (env.docPresent = true → pyStrip env.selection ≠ "" →
        (defaultFlow env c).dialogs = [⟨env.L.error, env.L.no_api_key⟩]) := by
  unfold defaultFlow
  by_cases hd : env.docPresent = true
  · rw [if_pos hd]
    by_cases hs : pyStrip env.selection = ""
    · rw [if_pos hs]
      exact ⟨rfl, fun _ hns => absurd hs hns⟩
    · rw [if_neg hs, if_pos hk]
      exact ⟨rfl, fun _ _ => rfl⟩
  · rw [if_neg hd]
    exact ⟨rfl, fun hd2 _ => absurd hd2 hd⟩

theorem translateFlow_no_key (env : Env)
    (hk : get_config env.cfg "openai_api_key" (PyVal.str "") = PyVal.str "") :
    (translateFlow env).httpCalls = 0 ∧
      (env.docPresent = true → pyStrip env.selection ≠ "" →
        (translateFlow env).dialogs = [⟨env.L.error, env.L.no_api_key⟩]) := by
  unfold translateFlow
  by_cases hd : env.docPresent = true
  · rw [if_pos hd]
    by_cases hs : pyStrip env.selection = ""
    · rw [if_pos hs]
      exact ⟨rfl, fun _ hns => absurd hs hns⟩
    · rw [if_neg hs, if_pos hk]
      exact ⟨rfl, fun _ _ => rfl⟩
  · rw [if_neg hd]
    exact ⟨rfl, fun hd2 _ => absurd hd2 hd⟩

theorem defaultFlow_ws (env : Env) (c : String) (hd : env.docPresent = true)
    (hs : pyStrip env.selection = "") :
    (defaultFlow env c).dialogs = [⟨env.L.error, env.L.no_text_selected⟩] ∧
      (defaultFlow env c).httpCalls = 0 := by
  unfold defaultFlow
  rw [if_pos hd, if_pos hs]
  exact ⟨rfl, rfl⟩

theorem translateFlow_ws (env : Env) (hd : env.docPresent = true)
    (hs : pyStrip env.selection = "") :
    (translateFlow env).dialogs = [⟨env.L.error, env.L.no_text_selected⟩] ∧
      (translateFlow env).httpCalls = 0 := by
  unfold translateFlow
  rw [if_pos hd, if_pos hs]
  exact ⟨rfl, rfl⟩

theorem settingsFlow_static (env : Env) :
    (settingsFlow env).dialogs = [] ∧ (settingsFlow env).settingsBoxCalls = 1 ∧
      (settingsFlow env).httpCalls = 0 := by
  unfold settingsFlow
  cases settings_box env.cfg env.sbConfirmed env.sbFields with
  | error e => exact ⟨rfl, rfl, rfl⟩
  | ok r =>
    obtain ⟨o, m, tp, mtok⟩ := r
    cases mtok with
    | none => exact ⟨rfl, rfl, rfl⟩
    | some mt => exact ⟨rfl, rfl, rfl⟩

theorem defaultFlow_no_inline (env : Env) (c : String) :
    (defaultFlow env c).inlineAppend = none := by
  unfold defaultFlow
  repeat' split
  all_goals rfl

theorem translateFlow_no_inline (env : Env) :
    (translateFlow env).inlineAppend = none := by
  unfold translateFlow
  split
  · split
    · rfl
    · split
      · rfl
      · dsimp only
        split
        · rfl
        · split
          · rfl
          · split
            · split
              · rfl
              · split
                · rfl
                · rfl
            · rfl
  · rfl

/-- C7: `insert_text` replaces the view cursor's content with exactly the
original selection, a blank line, the start marker line, the generated
text, the end marker line and a final blank line, where the language slot
of both markers is empty for every command except `translate` (where it
is the persisted target language); hence the original selection is a
verbatim prefix of the output, and on the spec's sample (selection `X`,
command `improve`, text `Y`) the output holds exactly one start and
exactly one end marker bracketing `Y`. -/
theorem C7_insert_format (L : Lang) (cfg : FileState) (t s c lbl : String)
    (h : commandLabel L c = some lbl) :
    insert_text L cfg t s c = Except.ok
        (s ++ "\n\n[---" ++ L.block_start ++ " " ++ pyUpper lbl ++ " "
          ++ insertLanguage cfg c ++ "---]\n" ++ t
          ++ "\n[/---" ++ L.block_end ++ " " ++ pyUpper lbl ++ " "
          ++ insertLanguage cfg c ++ "---]\n\n")
      ∧ (c ≠ "translate" → insertLanguage cfg c = "")
      ∧ (c = "translate" →
          insertLanguage cfg c = pyStr (get_config cfg "language" (PyVal.str "")))
      ∧ (∀ out, insert_text L cfg t s c = Except.ok out → s.data <+: out.data)
      ∧ countOccs "[---START IMPROVE ---]" sampleImproveOut = 1
      ∧ countOccs "[/---END IMPROVE ---]" sampleImproveOut = 1
      ∧ insert_text sampleLang FileState.missing "Y" "X" "improve"
          = Except.ok sampleImproveOut
      ∧ sampleImproveOut
          = "X" ++ "\n\n" ++ "[---START IMPROVE ---]" ++ "\n" ++ "Y" ++ "\n"
            ++ "[/---END IMPROVE ---]" ++ "\n\n" := by
  have heq : insert_text L cfg t s c = Except.ok
      (s ++ "\n\n[---" ++ L.block_start ++ " " ++ pyUpper lbl ++ " "
        ++ insertLanguage cfg c ++ "---]\n" ++ t
        ++ "\n[/---" ++ L.block_end ++ " " ++ pyUpper lbl ++ " "
        ++ insertLanguage cfg c ++ "---]\n\n") := by
    simp [insert_text, h]
  refine ⟨heq, fun hc => by simp [insertLanguage, hc],
    fun hc => by simp [insertLanguage, hc], ?_, rfl, rfl, rfl, rfl⟩
  intro out hout
  rw [heq] at hout
  injection hout with h2
  subst h2
  simp only [String.data_append, List.append_assoc]
  exact List.prefix_append _ _

/-- Witness for C7: the spec's sample insertion, with exactly one start
marker and one end marker around `Y` and the selection `X` kept as prefix. -/
theorem C7_insert_format_witness :
    insert_text sampleLang FileState.missing "Y" "X" "improve"
        = Except.ok sampleImproveOut
      ∧ countOccs "[---START IMPROVE ---]" sampleImproveOut = 1
      ∧ countOccs "[/---END IMPROVE ---]" sampleImproveOut = 1
      ∧ insertLanguage FileState.missing "improve" = "" :=
  have h := C7_insert_format sampleLang FileState.missing "Y" "X" "improve" "Improve" rfl
  ⟨h.2.2.2.2.2.2.1, h.2.2.2.2.1, h.2.2.2.2.2.1, h.2.1 (by decide)⟩

/-- C1: for a recognized command whose stored `max_tokens` / `temperature`
coerce, a completion response with any non-200 status makes `process_text`
yield no result and report an error dialog carrying the raw response body
(the spec's `ApiError`), and a raised transport exception makes it yield
no result and report an error dialog carrying the exception message (the
spec's `TransportError`). -/
theorem C1_completion_error_modes (L : Lang) (cfg : FileState)
    (loads : String → Except String Json) (text c lang : String)
    (hc : c ∈ aiCommands)
    (n : Int) (hn : pyIntVal (get_config cfg "max_tokens" (PyVal.str "1000")) = Except.ok n)
    (q : Rat) (hq : pyFloatVal (get_config cfg "temperature" (PyVal.str "0.5")) = Except.ok q) :
    (∀ status body, status ≠ 200 →
      process_text L cfg loads (Wire.response status body) text c lang
        = Except.ok ⟨none, [⟨L.error, body⟩], 1⟩) ∧
    (∀ msg, process_text L cfg loads (Wire.exn msg) text c lang
        = Except.ok ⟨none, [⟨L.error, msg⟩], 1⟩) := by
  have hp : ¬((prompt_map L text lang).lookup c = none) := by
    simp only [aiCommands, List.mem_cons, List.not_mem_nil, or_false] at hc
    rcases hc with rfl | rfl | rfl | rfl | rfl <;> simp [prompt_map, List.lookup]
  constructor
  · intro status body hst
    simp [process_text, hp, hn, hq, http_step, hst]
  · intro msg
    simp [process_text, hp, hn, hq, http_step]

/-- Witness for C1: status 500 with a body is reported as an error dialog
carrying that body; a raised transport exception is reported as an error
dialog carrying its message. -/
theorem C1_completion_error_modes_witness :
    process_text sampleLang FileState.missing failLoads
        (Wire.response 500 "Internal Server Error body") "hola" "complete" ""
        = Except.ok ⟨none, [⟨sampleLang.error, "Internal Server Error body"⟩], 1⟩
      ∧ process_text sampleLang FileState.missing failLoads
        (Wire.exn "urlopen error timed out") "hola" "complete" ""
        = Except.ok ⟨none, [⟨sampleLang.error, "urlopen error timed out"⟩], 1⟩ :=
  ⟨(C1_completion_error_modes sampleLang FileState.missing failLoads "hola" "complete" ""
      (by decide) 1000 rfl (mkRat 1 2) rfl).1 500 "Internal Server Error body" (by decide),
   (C1_completion_error_modes sampleLang FileState.missing failLoads "hola" "complete" ""
      (by decide) 1000 rfl (mkRat 1 2) rfl).2 "urlopen error timed out"⟩

/-- C5: for a recognized command whose stored parameters coerce, a 200
response whose JSON body holds the `choices[0].message.content` path
makes `process_text` return that content with surrounding whitespace
stripped, showing no dialog. -/
theorem C5_success_trimmed (L : Lang) (cfg : FileState)
    (loads : String → Except String Json) (text c lang body content : String) (j : Json)
    (hc : c ∈ aiCommands)
    (n : Int) (hn : pyIntVal (get_config cfg "max_tokens" (PyVal.str "1000")) = Except.ok n)
    (q : Rat) (hq : pyFloatVal (get_config cfg "temperature" (PyVal.str "0.5")) = Except.ok q)
    (hl : loads body = Except.ok j)
    (hx : contentAt j = Except.ok (Json.str content)) :
    process_text L cfg loads (Wire.response 200 body) text c lang
      = Except.ok ⟨some (pyStrip content), [], 1⟩ := by
  have hp : ¬((prompt_map L text lang).lookup c = none) := by
    simp only [aiCommands, List.mem_cons, List.not_mem_nil, or_false] at hc
    rcases hc with rfl | rfl | rfl | rfl | rfl <;> simp [prompt_map, List.lookup]
  have hex : extract_content j = Except.ok (pyStrip content) := by
    simp [extract_content, hx]
  simp [process_text, hp, hn, hq, http_step, hl, hex]

/-- Witness for C5: the spec's sample body
`choices[0].message.content = " Hello "` comes back as `"Hello"`. -/
theorem C5_success_trimmed_witness :
    process_text sampleLang FileState.missing sampleLoads (Wire.response 200 "body")
      "hola" "complete" "" = Except.ok ⟨some "Hello", [], 1⟩ :=
  C5_success_trimmed sampleLang FileState.missing sampleLoads "hola" "complete" ""
    "body" " Hello " sampleJson (by decide) 1000 rfl (mkRat 1 2) rfl rfl rfl

/-- C2: for each of the five pipeline commands, an empty configured
`openai_api_key` makes `trigger` perform zero HTTP calls, and (when a
document is open and the selection passes the earlier whitespace check)
present exactly the localized "no API key" error dialog. -/
theorem C2_no_api_key_short_circuit (env : Env) (command : String)
    (hc : command ∈ aiCommands)
    (hk : get_config env.cfg "openai_api_key" (PyVal.str "") = PyVal.str "") :
    (trigger env command).httpCalls = 0 ∧
      (env.docPresent = true → pyStrip env.selection ≠ "" →
        (trigger env command).dialogs = [⟨env.L.error, env.L.no_api_key⟩]) := by
  simp only [aiCommands, List.mem_cons, List.not_mem_nil, or_false] at hc
  rcases hc with rfl | rfl | rfl | rfl | rfl
  · rw [trigger_default_eq env _ (by decide) (by decide) (by decide)]
    exact defaultFlow_no_key env _ hk
  · rw [trigger_default_eq env _ (by decide) (by decide) (by decide)]
    exact defaultFlow_no_key env _ hk
  · rw [trigger_default_eq env _ (by decide) (by decide) (by decide)]
    exact defaultFlow_no_key env _ hk
  · rw [trigger_default_eq env _ (by decide) (by decide) (by decide)]
    exact defaultFlow_no_key env _ hk
  · rw [trigger_translate_eq env]
    exact translateFlow_no_key env hk

/-- Witness for C2: with no settings file (so an empty API key), a
`complete` trigger on a nonempty selection makes zero HTTP calls and
shows exactly the "no API key" dialog. -/
theorem C2_no_api_key_short_circuit_witness :
    (trigger sampleEnv "complete").httpCalls = 0
      ∧ (trigger sampleEnv "complete").dialogs
        = [⟨sampleLang.error, sampleLang.no_api_key⟩] :=
  have h := C2_no_api_key_short_circuit sampleEnv "complete" (by decide) rfl
  ⟨h.1, h.2 rfl (by decide)⟩

/-- C3: for each of the five pipeline commands, a whitespace-only
selection (with a document open) makes `trigger` present exactly the
localized "no text selected" error dialog and perform zero HTTP calls;
the `settings` command has no selection requirement — it always opens the
settings dialog and shows no message box at all. -/
theorem C3_selection_required (env : Env) (command : String)
    (hc : command ∈ aiCommands) (hd : env.docPresent = true)
    (hs : pyStrip env.selection = "") :
    (trigger env command).dialogs = [⟨env.L.error, env.L.no_text_selected⟩] ∧
    (trigger env command).httpCalls = 0 ∧
    (∀ env2 : Env, (trigger env2 "settings").settingsBoxCalls = 1 ∧
      (trigger env2 "settings").dialogs = []) := by
  have hset : ∀ env2 : Env, (trigger env2 "settings").settingsBoxCalls = 1 ∧
      (trigger env2 "settings").dialogs = [] := by
    intro env2
    rw [trigger_settings_eq env2]
    exact ⟨(settingsFlow_static env2).2.1, (settingsFlow_static env2).1⟩
  simp only [aiCommands, List.mem_cons, List.not_mem_nil, or_false] at hc
  rcases hc with rfl | rfl | rfl | rfl | rfl
  · rw [trigger_default_eq env _ (by decide) (by decide) (by decide)]
    exact ⟨(defaultFlow_ws env _ hd hs).1, (defaultFlow_ws env _ hd hs).2, hset⟩
  · rw [trigger_default_eq env _ (by decide) (by decide) (by decide)]
    exact ⟨(defaultFlow_ws env _ hd hs).1, (defaultFlow_ws env _ hd hs).2, hset⟩
  · rw [trigger_default_eq env _ (by decide) (by decide) (by decide)]
    exact ⟨(defaultFlow_ws env _ hd hs).1, (defaultFlow_ws env _ hd hs).2, hset⟩
  · rw [trigger_default_eq env _ (by decide) (by decide) (by decide)]
    exact ⟨(defaultFlow_ws env _ hd hs).1, (defaultFlow_ws env _ hd hs).2, hset⟩
  · rw [trigger_translate_eq env]
    exact ⟨(translateFlow_ws env hd hs).1, (translateFlow_ws env hd hs).2, hset⟩

/-- Witness for C3: a whitespace-only selection on `summarize` shows
exactly the "no text selected" dialog with zero HTTP calls, while
`settings` still opens its dialog. -/
theorem C3_selection_required_witness :
    (trigger sampleEnvWS "summarize").dialogs
        = [⟨sampleLang.error, sampleLang.no_text_selected⟩]
      ∧ (trigger sampleEnvWS "summarize").httpCalls = 0
      ∧ (trigger sampleEnvWS "settings").settingsBoxCalls = 1 :=
  have h := C3_selection_required sampleEnvWS "summarize" (by decide) rfl (by decide)
  ⟨h.1, h.2.1, (h.2.2 sampleEnvWS).1⟩

/-- C8: every exception the settings flow raises in the model (the
dialog's `float(...)` ValueError, or the KeyError from the omitted
`max_tokens` key) is caught by `trigger` and appended inline to the
selection range as `":error: " + str(e)` with no message box shown,
while the five pipeline commands never append inline text (their
user-facing failures go through the modal error dialog). -/
theorem C8_settings_error_inline (env : Env)
    (hexn : (∃ e, settings_box env.cfg env.sbConfirmed env.sbFields = Except.error e) ∨
      (∃ r, settings_box env.cfg env.sbConfirmed env.sbFields = Except.ok r ∧
        r.max_tokens = none)) :
    (∃ msg, (trigger env "settings").inlineAppend
        = some (env.selRangeText ++ ":error: " ++ msg)) ∧
    (trigger env "settings").dialogs = [] ∧
    (∀ env2 c, c ∈ aiCommands → (trigger env2 c).inlineAppend = none) := by
  have hother : ∀ env2 c, c ∈ aiCommands → (trigger env2 c).inlineAppend = none := by
    intro env2 c hc
    simp only [aiCommands, List.mem_cons, List.not_mem_nil, or_false] at hc
    rcases hc with rfl | rfl | rfl | rfl | rfl
    · rw [trigger_default_eq env2 _ (by decide) (by decide) (by decide)]
      exact defaultFlow_no_inline env2 _
    · rw [trigger_default_eq env2 _ (by decide) (by decide) (by decide)]
      exact defaultFlow_no_inline env2 _
    · rw [trigger_default_eq env2 _ (by decide) (by decide) (by decide)]
      exact defaultFlow_no_inline env2 _
    · rw [trigger_default_eq env2 _ (by decide) (by decide) (by decide)]
      exact defaultFlow_no_inline env2 _
    · rw [trigger_translate_eq env2]
      exact translateFlow_no_inline env2
  rw [trigger_settings_eq env]
  refine ⟨?_, (settingsFlow_static env).1, hother⟩
  rcases hexn with ⟨e, he⟩ | ⟨r, hr, hmt⟩
  · refine ⟨pyExnStr e, ?_⟩
    unfold settingsFlow
    rw [he]
  · refine ⟨pyExnStr (PyExn.keyError "max_tokens"), ?_⟩
    obtain ⟨o, m, tp, mtok⟩ := r
    unfold settingsFlow
    rw [hr]
    cases mtok with
    | none => rfl
    | some mt => simp at hmt

/-- Witness for C8: the sample context's confirmed settings dialog has a
non-numeric temperature field, so the flow appends the inline error text,
shows no dialog, and a pipeline command appends nothing. -/
theorem C8_settings_error_inline_witness :
    (∃ msg, (trigger sampleEnv "settings").inlineAppend
        = some (sampleEnv.selRangeText ++ ":error: " ++ msg))
      ∧ (trigger sampleEnv "settings").dialogs = []
      ∧ (trigger sampleEnv "complete").inlineAppend = none :=
  have h := C8_settings_error_inline sampleEnv
    (Or.inl ⟨PyExn.valueError "could not convert string to float: abc", rfl⟩)
  ⟨h.1, h.2.1, h.2.2 sampleEnv "complete" (by decide)⟩

end AIWriter
